import Mathlib

/-!
Shallow embedding of `src/agent.py` (a LangGraph plan-and-execute multi-agent
orchestrator) and proofs of the specification claims about it.

Modelling conventions:
* Python strings are `String`; Python lists are `List`.
* The LangGraph `State` TypedDict is the structure `State`; a key that may be
  absent at runtime (`response`, which no node has written before the first
  `replanner` call) is an `Option`.
* A LangGraph node returns a partial state update (a Python dict holding a
  subset of the keys).  This is the structure `Update`: `none` / `[]` fields
  are keys the node did not return.  `applyUpdate` is LangGraph's channel
  merge: plain keys (`original_objective`, `action_plan`, `response`) are
  last-value channels (an update overwrites, an absent key keeps the old
  value), while `messages` (`add_messages`) and `past_steps` (`operator.add`)
  are append reducers.
* The LLM calls (`model.with_structured_output(...).invoke(...)`) and the
  three `RemoteGraph` endpoints are external collaborators; they are
  parameters (`Oracles`, `Remotes`) of the node functions.  A remote graph is
  abstracted as `String → String`, mapping the outbound prompt to the textual
  content of the last message of its reply (the only part the code reads).
* Fallible Python code (indexing `plan[0]`, the dispatch chain that can leave
  `final_response` unbound) returns `Except`/`Option`.
-/

namespace PlanExecute

/-- A conversation entry (`AnyMessage`): its LangChain `type` tag
(for example "human", "ai", "tool", "tool_call") and its `content`. -/
structure Message where
  mtype : String
  content : String
deriving Repr, DecidableEq

/-- One plan step, from the Pydantic model `Step`.  The source constrains
`subagent` with `Literal[...]` to three tag strings; the dispatch code
compares the tag as a plain string, so it is a `String` here with the
allowed set recorded in `validSubagents`. -/
structure Step where
  description : String
  subagent : String
deriving Repr, DecidableEq

/-- The three capability tags admitted by the `Literal` annotation on
`Step.subagent`, which are also exactly the tags the executor's dispatch
chain tests for. -/
def validSubagents : List String :=
  ["customer_information_subagent", "music_catalog_information_subagent",
   "invoice_information_subagent"]

/-- The Pydantic model `Plan`. -/
structure Plan where
  steps : List Step
deriving Repr, DecidableEq

/-- The Pydantic model `Response` ("Response to user."). -/
structure Response where
  response : String
deriving Repr, DecidableEq

/-- The Pydantic model `PlanWithUserInput`: a revised plan together with the
updated customer objective. -/
structure PlanWithUserInput where
  steps : List Step
  updated_objective : String
deriving Repr, DecidableEq

/-- The payload of `ReplannerResponse.action`: the tagged union
`Union[Response, Plan]` that the replanner's structured-output call returns. -/
inductive ReplannerAction where
  | respond (r : Response)
  | plan (p : Plan)
deriving Repr, DecidableEq

/-- The LangGraph session `State` TypedDict.  `response` is `Option` because
the key is absent until the replanner first writes it (the code checks
membership with `"response" in state`). -/
structure State where
  original_objective : String
  action_plan : List Step
  messages : List Message
  past_steps : List (String × String)
  response : Option String
deriving Repr, DecidableEq

/-- A node's partial state update (the dict a node returns).  A `none` / `[]`
field is a key the node did not include in its return value. -/
structure Update where
  original_objective : Option String := none
  action_plan : Option (List Step) := none
  messages : List Message := []
  past_steps : List (String × String) := []
  response : Option String := none
deriving Repr, DecidableEq

/-- LangGraph's merge of a node's partial update into the session state:
`original_objective`, `action_plan` and `response` are last-value channels;
`messages` (`add_messages`) and `past_steps` (`operator.add`) append. -/
def applyUpdate (s : State) (u : Update) : State :=
  { original_objective := u.original_objective.getD s.original_objective
    action_plan := u.action_plan.getD s.action_plan
    messages := s.messages ++ u.messages
    past_steps := s.past_steps ++ u.past_steps
    response :=
      match u.response with
      | some v => some v
      | none => s.response }

/-- Python's slice `l[-n:]`: the last `n` elements (all of them when the list
is shorter). -/
def takeLast (n : Nat) (l : List α) : List α :=
  l.drop (l.length - n)

/-- Helper `format_steps` of the source, body of the loop: 1-based index `i`,
total count `n`, the remaining `(context, result)` records. -/
def format_steps_body : Nat → Nat → List (String × String) → String
  | _, _, [] => ""
  | i, n, rec :: rest =>
      "## Step " ++ toString i ++ "\n\n" ++
      "### Task Description\n" ++ rec.1 ++ "\n\n" ++
      "### Result\nThe following is the response returned after the subagent performed the task above:\n\n" ++
      rec.2 ++ "\n\n" ++
      (if i < n then "---\n\n" else "") ++
      format_steps_body (i + 1) n rest

/-- The source's `format_steps`: renders `past_steps` for the replanner
prompt. -/
def format_steps (steps_list : List (String × String)) : String :=
  "# STEPS ALREADY PERFORMED BY THE SUBAGENTS\n\n" ++
  format_steps_body 1 steps_list.length steps_list

/-- Helper `format_action_plan` of the source, body of the loop. -/
def format_action_plan_body : Nat → Nat → List Step → String
  | _, _, [] => ""
  | i, n, step :: rest =>
      "## Action " ++ toString i ++ "\n\n" ++
      "### Agent\n" ++ step.subagent ++ "\n\n" ++
      "### Task\n" ++ step.description ++ "\n\n" ++
      (if i < n then "---\n\n" else "") ++
      format_action_plan_body (i + 1) n rest

/-- The source's `format_action_plan`: renders a plan for the oracle
prompts. -/
def format_action_plan (steps_list : List Step) : String :=
  "# ACTION PLAN FROM PREVIOUS SUPERVISOR/PLANNER\n\n" ++
  format_action_plan_body 1 steps_list.length steps_list

/-- The fixed system instruction of the `supervisor` node (source lines 69-83),
verbatim. -/
def supervisor_prompt : String :=
  "You are an expert customer support assistant for a digital music store. You are dedicated to providing exceptional service and ensuring customer queries are answered thoroughly. You have a team of subagents that you can use to help answer queries from customers. Your primary role is to serve as a supervisor/planner for this multi-agent team that helps answer queries from customers. \nThe multi-agent team you are supervising is responsible for handling questions related to the digital music store\x27s music catalog (albums, tracks, songs, etc.), information about a customer\x27s account (name, email, phone number, address, etc.), and information about a customer\x27s past purchases or invoices. Your team is composed of three subagents that you can use to help answer the customer\x27s request:\n\n1. customer_information_subagent: this subagent is able to retrieve and update the personal information associated with a customer\x27s account in the database (specifically, viewing or updating a customer\x27s name, address, phone number, or email).\n2. music_catalog_information_subagent: this subagent is able to retrieve information about the digital music store\x27s music catalog (albums, tracks, songs, etc.) from the database.\n3. invoice_information_subagent: this subagent is able to retrieve information about a customer\x27s past purchases or invoices from the database.\n\nYour role is to create an action plan that the subagents can follow and execute to thoroughly answer the customer\x27s request. Your action plan should specify the exact steps that should be followed by the subagent(s) in order to successfully answer the customer\x27s request, and which subagent should perform each step. Return the action plan as a list of objects, where each object contains the following fields:\n- step: a detailed step that should be followed by the subagent(s) in order to successfully answer a portion of the customer\x27s request.\n- subagent_to_perform_step: the subagent that should perform the step.\n\nReturn the action plan in chronological order, starting with the first step to be performed, and ending with the last step to be performed. You should try your best not to have multiple steps performed by the same subagent. This is inefficient. If you need a subagent to perform a task, try and group it all into one step.\n\nIf you do not need a subagent to answer the customer\x27s request, do not include it in the action plan/list of steps. Your goal is to be as efficient as possible, while ensuring that the customer\x27s request is answered thoroughly. Take a deep breath and think carefully before responding. Go forth and make the customer delighted!\n"

/-- The f-string prompt `replan_with_user_input_prompt` built inside
`human_input` (source lines 169-204), as a function of its three
interpolation slots. -/
def replan_with_user_input_prompt (original_objective formatted_action_plan user_input : String) : String :=
  "You are an expert customer support assistant for a digital music store. You are dedicated to providing exceptional service and ensuring customer queries are answered thoroughly. You have a team of subagents that you can use to help answer queries from customers. Your primary role is to serve as a supervisor/planner for this multi-agent team that helps answer these queries from customers. \nThe multi-agent team you are supervising is responsible for handling questions related to the digital music store\x27s music catalog (albums, tracks, songs, etc.), information about a customer\x27s account (name, email, phone number, address, etc.), and information about a customer\x27s past purchases or invoices. Your team is composed of three subagents that you can use to help answer the customer\x27s request:\n\n1. customer_information_subagent: this subagent is able to retrieve and update the personal information associated with a customer\x27s account in the database (specifically, viewing or updating a customer\x27s name, address, phone number, or email).\n2. music_catalog_information_subagent: this subagent is able to retrieve information about the digital music store\x27s music catalog (albums, tracks, songs, etc.) from the database.\n3. invoice_information_subagent: this subagent is able to retrieve information about a customer\x27s past purchases or invoices from the database.\n\nBefore you, another supervisor/planner has already created an action plan for the subagents to follow. This action plan was then shown to the customer so they could provide feedback and ideas for improvement. \n\nYour job is to take the customer\x27s feedback and update the action plan and their original request/objective accordingly. Below, I have attached the previous action plan, the customer\x27s original request/objective that the action plan was created for, and the feedback/ideas for improvement from the customer.\n\nPlease take this feedback and construct a new action plan/original objective that the subagents can follow to thoroughly answer the customer\x27s request. If the feedback is not relevant or nonsensical, you can ignore it, and keep the original action plan/original objective.\n\nThe updated action plan should specify the exact steps that should be followed by the subagent(s) in order to successfully answer the customer\x27s request, and which subagent should perform each step. Return the action plan as a list of objects, where each object contains the following fields:\n- step: a detailed step that should be followed by the subagent(s) in order to successfully answer a portion of the customer\x27s request.\n- subagent_to_perform_step: the subagent that should perform the step.\n\nThe updated objective should be a detailed description of the customer\x27s request/objective, after taking into account the customer\x27s feedback/ideas for improvement.\n\nReturn the action plan in chronological order, starting with the first step to be performed, and ending with the last step to be performed. You should try your best not to have multiple steps performed by the same subagent. This is inefficient. If you need a subagent to perform a task, try and group it all into one step.\n\nIf you do not need a subagent to answer the customer\x27s request, do not include it in the action plan/list of steps. Your goal is to be as efficient as possible, while ensuring that the customer\x27s request is answered thoroughly and to the best of your ability.\n\nUse the information below to update the action plan and customer\x27s objective based on their feedback/ideas for improvement.\n\n*IMPORTANT INFORMATION BELOW*\n\nYour original objective/request from the customer was this:\n" ++
  original_objective ++
  "\n\nThe original action plan constructed by the previous supervisor/planner was this:\n" ++
  formatted_action_plan ++
  "\n\nThe customer\x27s feedback/ideas for improvement are as follows:\n" ++
  user_input ++
  "\n"

/-- The f-string prompt `replanner_prompt` built inside `replanner`
(source lines 260-291), as a function of its three interpolation slots. -/
def replanner_prompt (original_objective formatted_action_plan formatted_steps : String) : String :=
  "You are an expert customer support assistant for a digital music store. You are dedicated to providing exceptional service and ensuring customer queries are answered thoroughly. You have a team of subagents that you can use to help answer queries from customers. Your primary role is to serve as a supervisor/planner for this multi-agent team that helps answer these queries from customers. \nThe multi-agent team you are supervising is responsible for handling questions related to the digital music store\x27s music catalog (albums, tracks, songs, etc.), information about a customer\x27s account (name, email, phone number, address, etc.), and information about a customer\x27s past purchases or invoices. Your team is composed of three subagents that you can use to help answer the customer\x27s request:\n\n1. customer_information_subagent: this subagent is able to retrieve and update the personal information associated with a customer\x27s account in the database (specifically, viewing or updating a customer\x27s name, address, phone number, or email).\n2. music_catalog_information_subagent: this subagent is able to retrieve information about the digital music store\x27s music catalog (albums, tracks, songs, etc.) from the database.\n3. invoice_information_subagent: this subagent is able to retrieve information about a customer\x27s past purchases or invoices from the database.\n\nBefore you, another supervisor/planner has already created an action plan for the subagents to follow. I\x27ve attached the previous action plan, the customer\x27s original request, and the steps that have already been executed by the subagents below. You should take this information and either update the plan, or return Response if you believe the customer\x27s request has been answered thoroughly and you no longer need to use the subagents to solve the problem.\n\nIf you decide to update the action plan, your action plan should specify the exact steps that should be followed by the subagent(s) in order to successfully answer the customer\x27s request, and which subagent should perform each step. Return the action plan as a list of objects, where each object contains the following fields:\n- step: a detailed step that should be followed by the subagent(s) in order to successfully answer a portion of the customer\x27s request.\n- subagent_to_perform_step: the subagent that should perform the step.\n\nReturn the action plan in chronological order, starting with the first step to be performed, and ending with the last step to be performed. You should try your best not to have multiple steps performed by the same subagent. This is inefficient. If you need a subagent to perform a task, try and group it all into one step.\n\nIf you do not need a subagent to answer the customer\x27s request, do not include it in the action plan/list of steps. Your goal is to be as efficient as possible, while ensuring that the customer\x27s request is answered thoroughly and to the best of your ability.\n\nUse the information below to either update the action plan, or return Response if you believe the customer\x27s request has been answered thoroughly and you no longer need to use the subagents to solve the problem.\n\n*IMPORTANT INFORMATION BELOW*\n\nYour original objective/request from the customer was this:\n" ++
  original_objective ++
  "\n\nThe original action plan constructed by the previous supervisor/planner was this:\n" ++
  formatted_action_plan ++
  "\n\nThe subagents have already executed the following steps:\n" ++
  formatted_steps ++
  "\n\nIf no more steps are needed and you are ready to respond to the customer, use Response. If you still need to use the subagents to solve the problem, construct and return a list of steps to be performed by the subagents using Plan.\n"

/-- The three structured-output LLM calls (the spec's PlanningOracle), one per
caller shape, abstracted as pure functions of the prompt they are shown.
`planOracle` also receives the filtered conversation window the supervisor
passes after its system prompt. -/
structure Oracles where
  planOracle : String → List Message → List Step
  reviewOracle : String → PlanWithUserInput
  replanOracle : String → ReplannerAction

/-- The three `RemoteGraph` endpoints (the spec's RemoteAgentRegistry), each
abstracted as prompt → textual content of the last reply message. -/
structure Remotes where
  customer_information_remote_graph : String → String
  music_catalog_information_remote_graph : String → String
  invoice_information_remote_graph : String → String

/-- The `supervisor` node (source lines 138-154).  `state["messages"][-1]`
raises `IndexError` on an empty history, modelled as `none`.  The oracle is
shown the system prompt plus the last three conversation entries with
tool / tool-call entries filtered out. -/
def supervisor (planOracle : String → List Message → List Step) (s : State) :
    Option Update :=
  match s.messages.getLast? with
  | none => none
  | some first_message =>
      let filtered_messages :=
        (takeLast 3 s.messages).filter
          (fun msg => !(msg.mtype == "tool" || msg.mtype == "tool_call"))
      let result := planOracle supervisor_prompt filtered_messages
      some { action_plan := some result,
             original_objective := some first_message.content }

/-- The `human_input` node (source lines 156-212).  `user_input` is the resume
payload delivered to the `interrupt` call.  On non-empty feedback the review
oracle is invoked and both `action_plan` and `original_objective` are
returned; on empty feedback the node returns `None`, i.e. the empty update. -/
def human_input (reviewOracle : String → PlanWithUserInput)
    (user_input : String) (s : State) : Update :=
  let original_objective := s.original_objective
  let formatted_action_plan := format_action_plan s.action_plan
  if user_input ≠ "" then
    let result := reviewOracle
      (replan_with_user_input_prompt original_objective formatted_action_plan
        user_input)
    { action_plan := some result.steps,
      original_objective := some result.updated_objective }
  else
    {}

/-- The two ways `agent_executor` can raise instead of returning an update:
`index_out_of_bounds` is Python's `IndexError` from `plan[0]` on an empty
plan; `unbound_final_response` is the `UnboundLocalError` raised at the
`return` when the unmatched-tag dispatch chain (which has no `else` branch)
left `final_response` unassigned. -/
inductive ExecError where
  | index_out_of_bounds
  | unbound_final_response
deriving Repr, DecidableEq

/-- One line of the plan rendering inside `agent_executor`:
`f"{i+1}. {step.subagent} will: {step.description}"` (0-based `i`). -/
def renderPlanLine (i : Nat) (step : Step) : String :=
  toString (i + 1) ++ ". " ++ step.subagent ++ " will: " ++ step.description

/-- `total_plan` inside `agent_executor`: newline-joined enumeration of the
whole plan. -/
def total_plan_render (plan : List Step) : String :=
  String.intercalate "\n" (plan.enum.map (fun p => renderPlanLine p.1 p.2))

/-- `task_formatted_prompt` inside `agent_executor` (the f-string of source
lines 228-231), as a function of its interpolation slots. -/
def task_prompt (total_plan first_task_subagent first_task_description :
    String) : String :=
  "For the following plan: \n    " ++ total_plan ++
  "\n    You are tasked with executing the first step #1. " ++
  first_task_subagent ++ " will: " ++ first_task_description ++ "\n    "

/-- The spec's RemoteAgentRegistry as a mapping: which remote endpoint (if
any) serves a capability tag.  This is the lookup the executor's dispatch
chain implements. -/
def registryLookup (r : Remotes) (tag : String) : Option (String → String) :=
  if tag = "customer_information_subagent" then
    some r.customer_information_remote_graph
  else if tag = "music_catalog_information_subagent" then
    some r.music_catalog_information_remote_graph
  else if tag = "invoice_information_subagent" then
    some r.invoice_information_remote_graph
  else none

/-- The `agent_executor` node (source lines 214-246): renders the whole plan,
selects `plan[0]`, dispatches the task prompt to the remote endpoint whose
tag matches via the if/elif/elif chain (no `else`: an unmatched tag leaves
`final_response` unbound, an `UnboundLocalError` at the `return`), and
returns the one-record `past_steps` append. -/
def agent_executor (r : Remotes) (s : State) : Except ExecError Update :=
  match s.action_plan with
  | [] => Except.error ExecError.index_out_of_bounds
  | first :: rest =>
      let total_plan := total_plan_render (first :: rest)
      let first_task_subagent := first.subagent
      let first_task_description := first.description
      let first_task_subagent_response := first_task_subagent ++
        " executed logic to answer the following request from the planner/supervisor: "
        ++ first_task_description
      let task_formatted_prompt :=
        task_prompt total_plan first_task_subagent first_task_description
      let final_response : Option String :=
        if first_task_subagent = "customer_information_subagent" then
          some (r.customer_information_remote_graph task_formatted_prompt)
        else if first_task_subagent = "music_catalog_information_subagent" then
          some (r.music_catalog_information_remote_graph task_formatted_prompt)
        else if first_task_subagent = "invoice_information_subagent" then
          some (r.invoice_information_remote_graph task_formatted_prompt)
        else none
      match final_response with
      | some resp =>
          Except.ok { past_steps := [(first_task_subagent_response, resp)] }
      | none => Except.error ExecError.unbound_final_response

/-- The `replanner` node (source lines 248-297): shows the oracle the original
objective, the formatted previous plan and the formatted executed steps, then
returns either `{response: ...}` (oracle chose `Response`) or
`{action_plan: ...}` (oracle chose `Plan`). -/
def replanner (replanOracle : String → ReplannerAction) (s : State) : Update :=
  let original_objective := s.original_objective
  let previous_action_plan := s.action_plan
  let previous_steps := s.past_steps
  let formatted_action_plan := format_action_plan previous_action_plan
  let formatted_steps := format_steps previous_steps
  match replanOracle
      (replanner_prompt original_objective formatted_action_plan
        formatted_steps) with
  | ReplannerAction.respond r => { response := some r.response }
  | ReplannerAction.plan p => { action_plan := some p.steps }

/-- The nodes of the compiled graph, plus `start` (LangGraph's `START`) and
`terminated` (LangGraph's `END`). -/
inductive Node where
  | start
  | supervisor
  | human_input
  | agent_executor
  | replanner
  | terminated
deriving Repr, DecidableEq

/-- The `should_end` conditional (source lines 299-306): `END` iff the
`response` key is present and truthy (a non-empty string), otherwise loop to
`agent_executor`. -/
def should_end (s : State) : Node :=
  match s.response with
  | some r => if r ≠ "" then Node.terminated else Node.agent_executor
  | none => Node.agent_executor

/-- The static edges declared on the `builder` (source lines 313-321),
including the two possible targets of the conditional edge. -/
def graph_edge : Node → Node → Bool
  | Node.start, Node.supervisor => true
  | Node.supervisor, Node.human_input => true
  | Node.human_input, Node.agent_executor => true
  | Node.agent_executor, Node.replanner => true
  | Node.replanner, Node.agent_executor => true
  | Node.replanner, Node.terminated => true
  | _, _ => false

/-- One transition of the compiled graph on configurations (current node,
session state), for a fixed oracle/remote environment and a fixed resume
payload `feedback` for the single interrupt.  A node whose Python body raises
(supervisor on empty history, executor on empty plan or unmatched tag) has no
outgoing transition: the session aborts. -/
inductive StepRel (o : Oracles) (r : Remotes) (feedback : String) :
    Node × State → Node × State → Prop where
  | start_edge (s : State) :
      StepRel o r feedback (Node.start, s) (Node.supervisor, s)
  | supervisor_edge (s : State) (u : Update) :
      supervisor o.planOracle s = some u →
      StepRel o r feedback (Node.supervisor, s)
        (Node.human_input, applyUpdate s u)
  | human_input_edge (s : State) :
      StepRel o r feedback (Node.human_input, s)
        (Node.agent_executor,
          applyUpdate s (human_input o.reviewOracle feedback s))
  | agent_executor_edge (s : State) (u : Update) :
      agent_executor r s = Except.ok u →
      StepRel o r feedback (Node.agent_executor, s)
        (Node.replanner, applyUpdate s u)
  | replanner_edge (s : State) :
      StepRel o r feedback (Node.replanner, s)
        (should_end (applyUpdate s (replanner o.replanOracle s)),
          applyUpdate s (replanner o.replanOracle s))

/-- Reachability along graph transitions. -/
def Reachable (o : Oracles) (r : Remotes) (feedback : String)
    (c c' : Node × State) : Prop :=
  Relation.ReflTransGen (StepRel o r feedback) c c'

/-- The filtered conversation window (`filtered_messages`) the supervisor
shows the oracle: the last three entries minus tool / tool-call entries. -/
def supervisorContext (s : State) : List Message :=
  (takeLast 3 s.messages).filter
    (fun msg => !(msg.mtype == "tool" || msg.mtype == "tool_call"))

/-- The prompt the replanner builds from the state. -/
def replannerPromptOf (s : State) : String :=
  replanner_prompt s.original_objective (format_action_plan s.action_plan)
    (format_steps s.past_steps)

/-- The prompt the human-review gate builds from the state and the feedback
text. -/
def reviewPromptOf (s : State) (user_input : String) : String :=
  replan_with_user_input_prompt s.original_objective
    (format_action_plan s.action_plan) user_input

/-- Python truthiness of the `response` key: present and a non-empty
string. -/
def nonempty_response (s : State) : Bool :=
  match s.response with
  | some r => r != ""
  | none => false

/-- A run of the graph that counts executor invocations:
`RunN o r fb n c c'` is a chain of transitions from `c` to `c'` containing
exactly `n` steps leaving the `agent_executor` node. -/
inductive RunN (o : Oracles) (r : Remotes) (feedback : String) :
    Nat → Node × State → Node × State → Prop where
  | refl (c : Node × State) : RunN o r feedback 0 c c
  | exec_step (c c' c'' : Node × State) (n : Nat) :
      c.1 = Node.agent_executor → StepRel o r feedback c c' →
      RunN o r feedback n c' c'' → RunN o r feedback (n + 1) c c''
  | other_step (c c' c'' : Node × State) (n : Nat) :
      c.1 ≠ Node.agent_executor → StepRel o r feedback c c' →
      RunN o r feedback n c' c'' → RunN o r feedback n c c''

/-- Every plan this oracle environment can return is non-empty (the code
itself never checks this; it is an assumption about the external planning
oracle). -/
def oracle_plans_nonempty (o : Oracles) : Prop :=
  (∀ prompt msgs, o.planOracle prompt msgs ≠ []) ∧
  (∀ prompt, (o.reviewOracle prompt).steps ≠ []) ∧
  (∀ prompt p, o.replanOracle prompt = ReplannerAction.plan p → p.steps ≠ [])

/-- Invariant carried through the loop: from the human-review gate onwards
the current plan is non-empty. -/
def planInv (c : Node × State) : Prop :=
  (c.1 = Node.human_input ∨ c.1 = Node.agent_executor ∨
   c.1 = Node.replanner ∨ c.1 = Node.terminated) →
  c.2.action_plan ≠ []

/-! Concrete example data used by witnesses and counterexamples. -/

/-- A concrete triggering user message. -/
def exMsg : Message :=
  { mtype := "human", content := "my customer ID is 1. what is my name?" }

/-- A concrete plan step with a valid capability tag. -/
def exStep1 : Step :=
  { description := "look up the customer name",
    subagent := "customer_information_subagent" }

/-- A concrete step whose capability tag matches no registry entry (the
Pydantic `Literal` would reject it, which is why the executor never checks
for it). -/
def exBadStep : Step :=
  { description := "charge the customer", subagent := "payments_subagent" }

/-- Concrete remote endpoints returning fixed reply texts. -/
def exRemotes : Remotes :=
  { customer_information_remote_graph := fun _ => "remote reply A"
    music_catalog_information_remote_graph := fun _ => "remote reply B"
    invoice_information_remote_graph := fun _ => "remote reply C" }

/-- A concrete oracle environment whose replanner decision is terminal. -/
def exOracles : Oracles :=
  { planOracle := fun _ _ => [exStep1]
    reviewOracle := fun _ =>
      { steps := [exStep1], updated_objective := "updated objective" }
    replanOracle := fun _ => ReplannerAction.respond { response := "All done." } }

/-- A concrete oracle environment whose replanner continuation is the empty
plan: nothing in the code rules this out. -/
def cexOracles : Oracles :=
  { planOracle := fun _ _ => [exStep1]
    reviewOracle := fun _ =>
      { steps := [exStep1], updated_objective := "updated objective" }
    replanOracle := fun _ => ReplannerAction.plan { steps := [] } }

/-- A fresh session state holding only the initial user request. -/
def exInit : State :=
  { original_objective := "", action_plan := [], messages := [exMsg],
    past_steps := [], response := none }

/-- A state about to enter the executor with a one-step plan. -/
def exExecState : State :=
  { original_objective := "what is my name?", action_plan := [exStep1],
    messages := [exMsg], past_steps := [], response := none }

/-- A state whose first plan step has the unmatched capability tag. -/
def exBadTagState : State :=
  { original_objective := "charge me", action_plan := [exBadStep],
    messages := [exMsg], past_steps := [], response := none }

/-- The update `agent_executor` returns on `exExecState` under
`exRemotes`. -/
def exExecUpdate : Update :=
  { past_steps := [(exStep1.subagent ++
      " executed logic to answer the following request from the planner/supervisor: "
      ++ exStep1.description, "remote reply A")] }

/-- The state after that executor call. -/
def exRunEnd : State := applyUpdate exExecState exExecUpdate

/-- The supervisor's update on `exInit` (both under `exOracles` and under
`cexOracles`, whose plan oracles agree). -/
def cexU1 : Update :=
  { action_plan := some [exStep1], original_objective := some exMsg.content }

/-- State after the supervisor node. -/
def cexS1 : State := applyUpdate exInit cexU1

/-- State after the human-review gate resumed with empty feedback, in the
empty-continuation-plan scenario. -/
def cexS2 : State := applyUpdate cexS1 (human_input cexOracles.reviewOracle "" cexS1)

/-- State after the first executor call in that scenario. -/
def cexS3 : State := applyUpdate cexS2 exExecUpdate

/-- State after the replanner returned the empty continuation plan: the loop
routes back to the executor with `action_plan = []`. -/
def cexFinal : State :=
  applyUpdate cexS3 (replanner cexOracles.replanOracle cexS3)

/-- State after the human-review gate (empty feedback) under `exOracles`,
used to witness the amended plan-nonemptiness invariant. -/
def exS2 : State := applyUpdate cexS1 (human_input exOracles.reviewOracle "" cexS1)

/-! Helper lemmas shared by several claim proofs. -/

/-- Shape of any successful supervisor update. -/
theorem supervisor_some_elim (o : String → List Message → List Step)
    (s : State) (u : Update) (h : supervisor o s = some u) :
    ∃ last, s.messages.getLast? = some last ∧
      u = { action_plan := some (o supervisor_prompt (supervisorContext s)),
            original_objective := some last.content } := by
  unfold supervisor at h
  cases hl : s.messages.getLast? with
  | none => rw [hl] at h; exact absurd h (by simp)
  | some last =>
      rw [hl] at h
      simp only [Option.some.injEq] at h
      exact ⟨last, rfl, h.symm⟩

/-- The two shapes of the human-review gate's update. -/
theorem human_input_cases (o : String → PlanWithUserInput) (fb : String)
    (s : State) :
    (fb = "" ∧ human_input o fb s = {}) ∨
    (fb ≠ "" ∧ human_input o fb s =
      { action_plan := some (o (reviewPromptOf s fb)).steps,
        original_objective := some (o (reviewPromptOf s fb)).updated_objective }) := by
  by_cases hfb : fb = ""
  · exact Or.inl ⟨hfb, by simp [human_input, hfb]⟩
  · exact Or.inr ⟨hfb, by simp [human_input, hfb, reviewPromptOf]⟩

/-- The two shapes of the replanner's update, tied to the oracle's tagged
decision. -/
theorem replanner_cases (o : String → ReplannerAction) (s : State) :
    (∃ resp, o (replannerPromptOf s) = ReplannerAction.respond resp ∧
      replanner o s = { response := some resp.response }) ∨
    (∃ p, o (replannerPromptOf s) = ReplannerAction.plan p ∧
      replanner o s = { action_plan := some p.steps }) := by
  cases hr : o (replannerPromptOf s) with
  | respond resp =>
      refine Or.inl ⟨resp, rfl, ?_⟩
      simp only [replannerPromptOf] at hr
      simp [replanner, hr]
  | plan p =>
      refine Or.inr ⟨p, rfl, ?_⟩
      simp only [replannerPromptOf] at hr
      simp [replanner, hr]

/-- Shape of any successful executor update: only `past_steps` is returned,
holding exactly one record. -/
theorem exec_ok_update_shape (r : Remotes) (s : State) (u : Update)
    (h : agent_executor r s = Except.ok u) :
    u.original_objective = none ∧ u.action_plan = none ∧ u.response = none ∧
    u.messages = [] ∧ ∃ rec, u.past_steps = [rec] := by
  unfold agent_executor at h
  cases hp : s.action_plan with
  | nil => rw [hp] at h; exact absurd h (by simp)
  | cons first rest =>
      rw [hp] at h
      simp only [] at h
      by_cases h1 : first.subagent = "customer_information_subagent"
      · rw [if_pos h1] at h
        simp only [Except.ok.injEq] at h
        subst h; exact ⟨rfl, rfl, rfl, rfl, _, rfl⟩
      · rw [if_neg h1] at h
        by_cases h2 : first.subagent = "music_catalog_information_subagent"
        · rw [if_pos h2] at h
          simp only [Except.ok.injEq] at h
          subst h; exact ⟨rfl, rfl, rfl, rfl, _, rfl⟩
        · rw [if_neg h2] at h
          by_cases h3 : first.subagent = "invoice_information_subagent"
          · rw [if_pos h3] at h
            simp only [Except.ok.injEq] at h
            subst h; exact ⟨rfl, rfl, rfl, rfl, _, rfl⟩
          · rw [if_neg h3] at h
            simp at h

/-- `should_end` in terms of the truthiness test. -/
theorem should_end_eq (s : State) :
    should_end s =
      (if nonempty_response s then Node.terminated else Node.agent_executor) := by
  unfold should_end nonempty_response
  cases s.response with
  | none => rfl
  | some r =>
      by_cases hr : r = "" <;> simp [hr]

/-- The truthiness test unfolded to a proposition. -/
theorem nonempty_response_iff (s : State) :
    nonempty_response s = true ↔ ∃ r, s.response = some r ∧ r ≠ "" := by
  unfold nonempty_response
  cases s.response with
  | none => simp
  | some r => simp [bne_iff_ne]

/-- `should_end` only ever routes to `END` or back to the executor. -/
theorem should_end_only_two (s : State) :
    should_end s = Node.terminated ∨ should_end s = Node.agent_executor := by
  rw [should_end_eq]
  by_cases h : nonempty_response s <;> simp [h]

/-! The claims. -/

/-- C1: the spec requires the executor to explicitly guard a first step whose
capability tag matches no registry entry and surface a fatal
UnknownCapabilityError.  The code has no such guard: its dispatch chain has
no `else` branch, so an unmatched tag falls through all three branches and
the function crashes at its `return` with an `UnboundLocalError` on the
never-assigned `final_response` — an undefined-variable error, not a reported
unknown-capability error.  This theorem evaluates the embedded executor at
such a state. -/
theorem executor_unmatched_tag_is_unbound_error :
    exBadStep.subagent ∉ validSubagents ∧
    registryLookup exRemotes exBadStep.subagent = none ∧
    agent_executor exRemotes exBadTagState =
      Except.error ExecError.unbound_final_response := by
  refine ⟨by decide, rfl, ?_⟩
  rfl

/-- C2: one replanner invocation produces exactly one of two outcomes.  If
the oracle decides `Response`, the update sets `response` to the oracle's
answer text and leaves `action_plan` as-is; if it decides `Plan`, the update
replaces `action_plan` wholesale and leaves `response` as it was (unset).
The update never contains both keys and never neither. -/
theorem replanner_exactly_one_outcome (o : String → ReplannerAction)
    (s : State) :
    ((∃ resp, o (replannerPromptOf s) = ReplannerAction.respond resp ∧
        (replanner o s).response = some resp.response ∧
        (replanner o s).action_plan = none ∧
        (applyUpdate s (replanner o s)).action_plan = s.action_plan ∧
        (applyUpdate s (replanner o s)).response = some resp.response) ∨
     (∃ p, o (replannerPromptOf s) = ReplannerAction.plan p ∧
        (replanner o s).action_plan = some p.steps ∧
        (replanner o s).response = none ∧
        (applyUpdate s (replanner o s)).action_plan = p.steps ∧
        (applyUpdate s (replanner o s)).response = s.response)) ∧
    ¬ ((replanner o s).response.isSome ∧ (replanner o s).action_plan.isSome) ∧
    ((replanner o s).response.isSome ∨ (replanner o s).action_plan.isSome) := by
  rcases replanner_cases o s with ⟨resp, hr, hu⟩ | ⟨p, hr, hu⟩
  · refine ⟨Or.inl ⟨resp, hr, ?_, ?_, ?_, ?_⟩, ?_, ?_⟩ <;>
      simp [hu, applyUpdate]
  · refine ⟨Or.inr ⟨p, hr, ?_, ?_, ?_, ?_⟩, ?_, ?_⟩ <;>
      simp [hu, applyUpdate]

/-- C3: the conditional routes to `END` exactly when the `response` key is
present with a non-empty string value, and to the executor in every other
case (key absent, or present but empty). -/
theorem should_end_terminates_iff_nonempty_response (s : State) :
    (should_end s = Node.terminated ↔ ∃ r, s.response = some r ∧ r ≠ "") ∧
    (should_end s = Node.agent_executor ↔
      ¬ ∃ r, s.response = some r ∧ r ≠ "") := by
  rw [should_end_eq, ← nonempty_response_iff s]
  by_cases h : nonempty_response s <;> simp [h]

/-- C5: the human-review gate resumed with the empty string changes neither
`action_plan` nor `original_objective` (the whole state is untouched); with
non-empty feedback both fields are replaced wholesale with the revised plan
and the updated objective the review oracle returned. -/
theorem human_review_gate_frame (o : String → PlanWithUserInput) (s : State) :
    (applyUpdate s (human_input o "" s) = s) ∧
    (∀ fb, fb ≠ "" →
      (applyUpdate s (human_input o fb s)).action_plan =
        (o (reviewPromptOf s fb)).steps ∧
      (applyUpdate s (human_input o fb s)).original_objective =
        (o (reviewPromptOf s fb)).updated_objective ∧
      (applyUpdate s (human_input o fb s)).past_steps = s.past_steps ∧
      (applyUpdate s (human_input o fb s)).response = s.response) := by
  constructor
  · rcases human_input_cases o "" s with ⟨_, hu⟩ | ⟨hfb, _⟩
    · simp [hu, applyUpdate]
    · exact absurd rfl hfb
  · intro fb hfb
    rcases human_input_cases o fb s with ⟨hfb', _⟩ | ⟨_, hu⟩
    · exact absurd hfb' hfb
    · simp [hu, applyUpdate]

/-- C7: the executor call is fully determined by the head of the plan: it
dispatches to the registry entry matching the tag of the step at index 0 (and
no other index), appending exactly one record, and the prompt it sends embeds
the full ordered plan with each step rendered as
"index. capability will: description" (1-based), followed by the explicit
instruction to perform step #1 only, restating the first step. -/
theorem executor_dispatches_first_step (r : Remotes) (s : State)
    (first : Step) (rest : List Step) (h : s.action_plan = first :: rest) :
    agent_executor r s =
      (match registryLookup r first.subagent with
        | some remote => Except.ok { past_steps := [(first.subagent ++
            " executed logic to answer the following request from the planner/supervisor: "
            ++ first.description,
            remote (task_prompt (total_plan_render (first :: rest))
              first.subagent first.description))] }
        | none => Except.error ExecError.unbound_final_response) ∧
    task_prompt (total_plan_render (first :: rest)) first.subagent
        first.description =
      "For the following plan: \n    " ++
      String.intercalate "\n" (((first :: rest).enum).map
        (fun p => toString (p.1 + 1) ++ ". " ++ p.2.subagent ++ " will: " ++
          p.2.description)) ++
      "\n    You are tasked with executing the first step #1. " ++
      first.subagent ++ " will: " ++ first.description ++ "\n    " := by
  constructor
  · unfold agent_executor registryLookup
    rw [h]
    simp only []
    by_cases h1 : first.subagent = "customer_information_subagent"
    · rw [if_pos h1, if_pos h1]
    · rw [if_neg h1, if_neg h1]
      by_cases h2 : first.subagent = "music_catalog_information_subagent"
      · rw [if_pos h2, if_pos h2]
      · rw [if_neg h2, if_neg h2]
        by_cases h3 : first.subagent = "invoice_information_subagent"
        · rw [if_pos h3, if_pos h3]
        · rw [if_neg h3, if_neg h3]
  · rfl

/-- Witness for C7 at a concrete one-step plan. -/
theorem executor_dispatches_first_step_witness :
    agent_executor exRemotes exExecState =
      (match registryLookup exRemotes exStep1.subagent with
        | some remote => Except.ok { past_steps := [(exStep1.subagent ++
            " executed logic to answer the following request from the planner/supervisor: "
            ++ exStep1.description,
            remote (task_prompt (total_plan_render (exStep1 :: []))
              exStep1.subagent exStep1.description))] }
        | none => Except.error ExecError.unbound_final_response) ∧
    task_prompt (total_plan_render (exStep1 :: [])) exStep1.subagent
        exStep1.description =
      "For the following plan: \n    " ++
      String.intercalate "\n" (((exStep1 :: []).enum).map
        (fun p => toString (p.1 + 1) ++ ". " ++ p.2.subagent ++ " will: " ++
          p.2.description)) ++
      "\n    You are tasked with executing the first step #1. " ++
      exStep1.subagent ++ " will: " ++ exStep1.description ++ "\n    " :=
  executor_dispatches_first_step exRemotes exExecState exStep1 [] rfl

/-- C8: a successful executor call updates only `past_steps` (by exactly one
appended record); `action_plan`, `original_objective`, `response` and the
conversation history are untouched, so the replanner reads the plan that was
in effect before the step. -/
theorem executor_update_frame (r : Remotes) (s : State) (u : Update)
    (h : agent_executor r s = Except.ok u) :
    (applyUpdate s u).action_plan = s.action_plan ∧
    (applyUpdate s u).original_objective = s.original_objective ∧
    (applyUpdate s u).response = s.response ∧
    (applyUpdate s u).messages = s.messages ∧
    ∃ rec, (applyUpdate s u).past_steps = s.past_steps ++ [rec] := by
  obtain ⟨ho, ha, hr, hm, rec, hp⟩ := exec_ok_update_shape r s u h
  exact ⟨by simp [applyUpdate, ha], by simp [applyUpdate, ho],
    by simp [applyUpdate, hr], by simp [applyUpdate, hm],
    rec, by simp [applyUpdate, hp]⟩

/-- Witness for C8 at a concrete executor call. -/
theorem executor_update_frame_witness :
    (applyUpdate exExecState exExecUpdate).action_plan =
      exExecState.action_plan ∧
    (applyUpdate exExecState exExecUpdate).original_objective =
      exExecState.original_objective ∧
    (applyUpdate exExecState exExecUpdate).response = exExecState.response ∧
    (applyUpdate exExecState exExecUpdate).messages = exExecState.messages ∧
    ∃ rec, (applyUpdate exExecState exExecUpdate).past_steps =
      exExecState.past_steps ++ [rec] :=
  executor_update_frame exRemotes exExecState exExecUpdate rfl

/-- C9: the supervisor sets `original_objective` to the verbatim content of
the latest (triggering) user message and `action_plan` to the oracle's plan;
the conversation context shown to the oracle is at most the three most recent
entries, with every tool / tool-call entry excluded. -/
theorem supervisor_output (o : String → List Message → List Step) (s : State)
    (u : Update) (h : supervisor o s = some u) :
    (∃ last, s.messages.getLast? = some last ∧
      u.original_objective = some last.content) ∧
    u.action_plan = some (o supervisor_prompt (supervisorContext s)) ∧
    (supervisorContext s).length ≤ 3 ∧
    (∀ m ∈ supervisorContext s,
      m.mtype ≠ "tool" ∧ m.mtype ≠ "tool_call" ∧ m ∈ takeLast 3 s.messages) ∧
    u.response = none ∧ u.past_steps = [] ∧ u.messages = [] := by
  obtain ⟨last, hl, hu⟩ := supervisor_some_elim o s u h
  subst hu
  refine ⟨⟨last, hl, rfl⟩, rfl, ?_, ?_, rfl, rfl, rfl⟩
  · calc (supervisorContext s).length ≤ (takeLast 3 s.messages).length :=
          List.length_filter_le _ _
      _ ≤ 3 := by unfold takeLast; rw [List.length_drop]; omega
  · intro m hm
    unfold supervisorContext at hm
    rw [List.mem_filter] at hm
    have h2 := hm.2
    simp only [Bool.not_eq_true', Bool.or_eq_false_iff, beq_eq_false_iff_ne]
      at h2
    exact ⟨h2.1, h2.2, hm.1⟩

/-- Witness for C9 at a concrete one-message history. -/
theorem supervisor_output_witness :
    (∃ last, exInit.messages.getLast? = some last ∧
      cexU1.original_objective = some last.content) ∧
    cexU1.action_plan =
      some (exOracles.planOracle supervisor_prompt (supervisorContext exInit)) ∧
    (supervisorContext exInit).length ≤ 3 ∧
    (∀ m ∈ supervisorContext exInit,
      m.mtype ≠ "tool" ∧ m.mtype ≠ "tool_call" ∧
      m ∈ takeLast 3 exInit.messages) ∧
    cexU1.response = none ∧ cexU1.past_steps = [] ∧ cexU1.messages = [] :=
  supervisor_output exOracles.planOracle exInit cexU1 rfl

/-- Along one transition, `past_steps` grows by exactly one appended record
when the source node is the executor and is unchanged otherwise. -/
theorem step_past_steps (o : Oracles) (r : Remotes) (fb : String)
    (c c' : Node × State) (h : StepRel o r fb c c') :
    (c.1 = Node.agent_executor →
      ∃ rec, c'.2.past_steps = c.2.past_steps ++ [rec]) ∧
    (c.1 ≠ Node.agent_executor → c'.2.past_steps = c.2.past_steps) := by
  cases h with
  | start_edge s => exact ⟨fun hn => by simp at hn, fun _ => rfl⟩
  | supervisor_edge s u hu =>
      refine ⟨fun hn => by simp at hn, fun _ => ?_⟩
      obtain ⟨last, hl, huu⟩ := supervisor_some_elim _ _ _ hu
      subst huu
      simp [applyUpdate]
  | human_input_edge s =>
      refine ⟨fun hn => by simp at hn, fun _ => ?_⟩
      rcases human_input_cases o.reviewOracle fb s with ⟨_, hu⟩ | ⟨_, hu⟩ <;>
        simp [hu, applyUpdate]
  | agent_executor_edge s u hu =>
      refine ⟨fun _ => ?_, fun hn => absurd rfl hn⟩
      obtain ⟨_, _, _, _, rec, hp⟩ := exec_ok_update_shape _ _ _ hu
      exact ⟨rec, by simp [applyUpdate, hp]⟩
  | replanner_edge s =>
      refine ⟨fun hn => by simp at hn, fun _ => ?_⟩
      rcases replanner_cases o.replanOracle s with ⟨resp, _, hu⟩ | ⟨p, _, hu⟩ <;>
        simp [hu, applyUpdate]

/-- Preservation of the plan-nonemptiness invariant along one transition,
assuming the oracle environment only returns non-empty plans. -/
theorem planInv_preserved (o : Oracles) (r : Remotes) (fb : String)
    (ho : oracle_plans_nonempty o) (c c' : Node × State)
    (h : StepRel o r fb c c') (hc : planInv c) : planInv c' := by
  obtain ⟨ho1, ho2, ho3⟩ := ho
  cases h with
  | start_edge s =>
      intro hn; rcases hn with hx | hx | hx | hx <;> simp at hx
  | supervisor_edge s u hu =>
      intro _
      obtain ⟨last, hl, huu⟩ := supervisor_some_elim _ _ _ hu
      subst huu
      simp only [applyUpdate, Option.getD_some]
      exact ho1 _ _
  | human_input_edge s =>
      intro _
      rcases human_input_cases o.reviewOracle fb s with ⟨_, hu⟩ | ⟨_, hu⟩
      · rw [hu]
        simpa [applyUpdate] using hc (Or.inl rfl)
      · rw [hu]
        simpa [applyUpdate] using ho2 _
  | agent_executor_edge s u hu =>
      intro _
      obtain ⟨_, ha, _, _, _, _⟩ := exec_ok_update_shape _ _ _ hu
      simpa [applyUpdate, ha] using hc (Or.inr (Or.inl rfl))
  | replanner_edge s =>
      intro _
      rcases replanner_cases o.replanOracle s with ⟨resp, _, hu⟩ | ⟨p, hp', hu⟩
      · rw [hu]
        simpa [applyUpdate] using hc (Or.inr (Or.inr (Or.inl rfl)))
      · rw [hu]
        simpa [applyUpdate] using ho3 _ _ hp'

/-- The example oracle environment only returns non-empty plans. -/
theorem exOracles_plans_nonempty : oracle_plans_nonempty exOracles := by
  refine ⟨fun _ _ => by simp [exOracles], fun _ => by simp [exOracles], ?_⟩
  intro prompt p hp
  simp [exOracles] at hp

/-- A concrete run reaching the executor under `exOracles` (supervisor, then
review gate resumed with empty feedback). -/
theorem exReach : Reachable exOracles exRemotes "" (Node.start, exInit)
    (Node.agent_executor, exS2) := by
  have t1 : StepRel exOracles exRemotes "" (Node.start, exInit)
      (Node.supervisor, exInit) := StepRel.start_edge exInit
  have t2 : StepRel exOracles exRemotes "" (Node.supervisor, exInit)
      (Node.human_input, cexS1) := StepRel.supervisor_edge exInit cexU1 rfl
  have t3 : StepRel exOracles exRemotes "" (Node.human_input, cexS1)
      (Node.agent_executor, exS2) := StepRel.human_input_edge cexS1
  exact Relation.ReflTransGen.head t1
    (Relation.ReflTransGen.head t2 (Relation.ReflTransGen.single t3))

/-- A concrete run in which the replanner's continuation plan is empty and
control loops back to the executor with an empty `action_plan`. -/
theorem cexReach : Reachable cexOracles exRemotes "" (Node.start, exInit)
    (Node.agent_executor, cexFinal) := by
  have t1 : StepRel cexOracles exRemotes "" (Node.start, exInit)
      (Node.supervisor, exInit) := StepRel.start_edge exInit
  have t2 : StepRel cexOracles exRemotes "" (Node.supervisor, exInit)
      (Node.human_input, cexS1) := StepRel.supervisor_edge exInit cexU1 rfl
  have t3 : StepRel cexOracles exRemotes "" (Node.human_input, cexS1)
      (Node.agent_executor, cexS2) := StepRel.human_input_edge cexS1
  have t4 : StepRel cexOracles exRemotes "" (Node.agent_executor, cexS2)
      (Node.replanner, cexS3) :=
    StepRel.agent_executor_edge cexS2 exExecUpdate rfl
  have t5 : StepRel cexOracles exRemotes "" (Node.replanner, cexS3)
      (Node.agent_executor, cexFinal) := StepRel.replanner_edge cexS3
  exact Relation.ReflTransGen.head t1 (Relation.ReflTransGen.head t2
    (Relation.ReflTransGen.head t3 (Relation.ReflTransGen.head t4
      (Relation.ReflTransGen.single t5))))

/-- C4 counterexample: the claim as stated fails on the code.  Nothing
validates non-emptiness of a continuation plan, so with a planning oracle
that returns the empty `Plan` the session reaches the executor in a state
with `response` unset and `action_plan = []`, where the selection of the
step at position 0 raises `IndexError` (the out-of-bounds branch is
reachable). -/
theorem empty_plan_reaches_executor :
    Reachable cexOracles exRemotes "" (Node.start, exInit)
      (Node.agent_executor, cexFinal) ∧
    cexFinal.response = none ∧
    cexFinal.action_plan = [] ∧
    agent_executor exRemotes cexFinal =
      Except.error ExecError.index_out_of_bounds :=
  ⟨cexReach, rfl, rfl, rfl⟩

/-- Every reachable configuration satisfies the plan-nonemptiness invariant,
under the non-empty-oracle-plans assumption. -/
theorem reachable_planInv (o : Oracles) (r : Remotes) (fb : String)
    (s0 : State) (c : Node × State) (ho : oracle_plans_nonempty o)
    (h : Reachable o r fb (Node.start, s0) c) : planInv c := by
  induction h with
  | refl => intro hn; rcases hn with hx | hx | hx | hx <;> simp at hx
  | tail hab hbc ih => exact planInv_preserved o r fb ho _ _ hbc ih

/-- C4 (amended): provided every plan the oracle environment returns is
non-empty — an assumption about the external oracle that the code itself
never checks — every reachable configuration at the executor node has a
non-empty `action_plan`, so the executor's selection of the step at position
0 cannot raise the out-of-bounds error. -/
theorem plan_nonempty_at_executor (o : Oracles) (r : Remotes) (fb : String)
    (s0 : State) (c : Node × State) (ho : oracle_plans_nonempty o)
    (h : Reachable o r fb (Node.start, s0) c)
    (hc : c.1 = Node.agent_executor) :
    c.2.action_plan ≠ [] ∧
    agent_executor r c.2 ≠ Except.error ExecError.index_out_of_bounds := by
  have hinv : planInv c := reachable_planInv o r fb s0 c ho h
  have hne : c.2.action_plan ≠ [] := hinv (Or.inr (Or.inl hc))
  refine ⟨hne, ?_⟩
  cases hp : c.2.action_plan with
  | nil => exact absurd hp hne
  | cons first rest =>
      intro hcontra
      unfold agent_executor at hcontra
      rw [hp] at hcontra
      simp only [] at hcontra
      split at hcontra <;> simp at hcontra

/-- Witness for the amended C4 at a concrete reachable executor state. -/
theorem plan_nonempty_at_executor_witness :
    (Node.agent_executor, exS2).2.action_plan ≠ [] ∧
    agent_executor exRemotes (Node.agent_executor, exS2).2 ≠
      Except.error ExecError.index_out_of_bounds :=
  plan_nonempty_at_executor exOracles exRemotes "" exInit
    (Node.agent_executor, exS2) exOracles_plans_nonempty exReach rfl

/-- C6: along any run, `past_steps` ends as the start's `past_steps` extended
(append-only, order preserved, never shrinking) by exactly as many records as
the run has executor invocations; a session starting with `past_steps = []`
therefore has `length past_steps = n` after `n` completed executor calls. -/
theorem past_steps_length_counts_executor_calls (o : Oracles) (r : Remotes)
    (fb : String) (n : Nat) (c c' : Node × State) (h : RunN o r fb n c c') :
    c'.2.past_steps.length = c.2.past_steps.length + n ∧
    ∃ t, c'.2.past_steps = c.2.past_steps ++ t := by
  induction h with
  | refl c => exact ⟨by omega, [], by simp⟩
  | exec_step c c' c'' n hn hst hrun ih =>
      obtain ⟨rec, hrec⟩ := (step_past_steps o r fb c c' hst).1 hn
      obtain ⟨ihlen, t, hts⟩ := ih
      have hlen1 : c'.2.past_steps.length = c.2.past_steps.length + 1 := by
        rw [hrec]; simp
      refine ⟨by omega, rec :: t, ?_⟩
      rw [hts, hrec, List.append_assoc]
      rfl
  | other_step c c' c'' n hn hst hrun ih =>
      have hrec := (step_past_steps o r fb c c' hst).2 hn
      obtain ⟨ihlen, t, hts⟩ := ih
      exact ⟨by rw [ihlen, hrec], t, by rw [hts, hrec]⟩

/-- A concrete run made of one executor invocation. -/
theorem exRun1 : RunN exOracles exRemotes "" 1
    (Node.agent_executor, exExecState) (Node.replanner, exRunEnd) :=
  RunN.exec_step _ _ _ 0 rfl
    (StepRel.agent_executor_edge exExecState exExecUpdate rfl)
    (RunN.refl _)

/-- Witness for C6 at that concrete one-invocation run. -/
theorem past_steps_length_witness :
    (Node.replanner, exRunEnd).2.past_steps.length =
      (Node.agent_executor, exExecState).2.past_steps.length + 1 ∧
    ∃ t, (Node.replanner, exRunEnd).2.past_steps =
      (Node.agent_executor, exExecState).2.past_steps ++ t :=
  past_steps_length_counts_executor_calls exOracles exRemotes "" 1 _ _ exRun1

/-- C10: every transition follows an edge of the fixed graph; `START` is
never re-entered, the supervisor is entered only from `START` and the review
gate only from the supervisor (so neither is reachable again after the first
pass); the executor is entered only from the review gate or the replanner,
and the replanner loops back to the executor only when the updated state's
`response` is not a non-empty string. -/
theorem control_flow_fixed_order (o : Oracles) (r : Remotes) (fb : String)
    (c c' : Node × State) (h : StepRel o r fb c c') :
    graph_edge c.1 c'.1 = true ∧
    c'.1 ≠ Node.start ∧
    (c'.1 = Node.supervisor → c.1 = Node.start) ∧
    (c'.1 = Node.human_input → c.1 = Node.supervisor) ∧
    (c'.1 = Node.agent_executor →
      c.1 = Node.human_input ∨ c.1 = Node.replanner) ∧
    (c.1 = Node.replanner → c'.1 = Node.agent_executor →
      nonempty_response c'.2 = false) := by
  cases h with
  | start_edge s => exact ⟨rfl, by simp, by simp, by simp, by simp, by simp⟩
  | supervisor_edge s u hu =>
      exact ⟨rfl, by simp, by simp, by simp, by simp, by simp⟩
  | human_input_edge s =>
      exact ⟨rfl, by simp, by simp, by simp, by simp, by simp⟩
  | agent_executor_edge s u hu =>
      exact ⟨rfl, by simp, by simp, by simp, by simp, by simp⟩
  | replanner_edge s =>
      rcases should_end_only_two (applyUpdate s (replanner o.replanOracle s))
        with hse | hse
      · rw [hse]
        exact ⟨rfl, by simp, by simp, by simp, by simp, by simp⟩
      · rw [hse]
        refine ⟨rfl, by simp, by simp, by simp,
          fun _ => Or.inr rfl, fun _ _ => ?_⟩
        cases hnb : nonempty_response (applyUpdate s (replanner o.replanOracle s)) with
        | false => rfl
        | true =>
            rw [should_end_eq, hnb] at hse
            simp at hse

/-- Witness for C10 at a concrete transition. -/
theorem control_flow_fixed_order_witness :
    graph_edge (Node.start, exInit).1 (Node.supervisor, exInit).1 = true ∧
    (Node.supervisor, exInit).1 ≠ Node.start ∧
    ((Node.supervisor, exInit).1 = Node.supervisor →
      (Node.start, exInit).1 = Node.start) ∧
    ((Node.supervisor, exInit).1 = Node.human_input →
      (Node.start, exInit).1 = Node.supervisor) ∧
    ((Node.supervisor, exInit).1 = Node.agent_executor →
      (Node.start, exInit).1 = Node.human_input ∨
      (Node.start, exInit).1 = Node.replanner) ∧
    ((Node.start, exInit).1 = Node.replanner →
      (Node.supervisor, exInit).1 = Node.agent_executor →
      nonempty_response (Node.supervisor, exInit).2 = false) :=
  control_flow_fixed_order exOracles exRemotes "" (Node.start, exInit)
    (Node.supervisor, exInit) (StepRel.start_edge exInit)

end PlanExecute
